import Mathlib

/-!
# Celeritas: numeric tolerance, assertion macros, interactor validity ranges

A shallow embedding of

* `src/base/SoftEqual.hh`  (soft floating point comparison),
* `src/base/Assert.hh`     (assertion macros and error kinds),
* `src/physics/base/PDGNumber.hh` (particle codes),
* `src/physics/em/BetheHeitlerInteractor.hh`,
  `src/physics/em/PhotoelectricInteractor.hh` (model validity ranges, pair
  production on an exhausted secondary arena),

followed by the theorems about them.

Conventions.  `real_type` is exact rational arithmetic: rounding, NaN and
signed zeros are outside the model.  A macro is a function from the state at
the point of use to an `Outcome`; `__FILE__` and `__LINE__` are the arguments
`file` and `line`, and `#COND` is the field `text` of the condition.
-/

namespace celeritas

/-! ## base/SoftEqual.hh -/

/-- The scalar type `real_type` (base/Types.hh), as exact rationals. -/
abbrev real_type : Type := ℚ

namespace detail

/-- Modelled from the spec: `detail::SoftEqualTraits<real_type>::rel_prec()`
(detail/SoftEqualTraits.hh is absent); "rel≈1e-12 for double-precision reals",
also the class comment "default 1.0e-12 for doubles". -/
def SoftEqualTraits.rel_prec : real_type := 1 / 10 ^ 12

/-- Modelled from the spec: `detail::SoftEqualTraits<real_type>::abs_thresh()`
(detail/SoftEqualTraits.hh is absent); "abs≈1e-14 for double-precision reals",
also the class comment "default 1.0e-14 for doubles". -/
def SoftEqualTraits.abs_thresh : real_type := 1 / 10 ^ 14

end detail

/-- The class `SoftEqual<real_type>`: its two private members `rel_`, `abs_`;
`SoftEqual.mk rel abs` is the two-argument constructor. -/
structure SoftEqual where
  rel_ : real_type
  abs_ : real_type
  deriving DecidableEq

namespace SoftEqual

/-- Accessor `rel()`. -/
def rel (f : SoftEqual) : real_type := f.rel_

/-- Accessor `abs()`. -/
def abs (f : SoftEqual) : real_type := f.abs_

/-- Modelled from the spec: the default constructor `SoftEqual()` (its body is
in SoftEqual.i.hh, absent); "Construct with default relative/absolute
precision". -/
def mk_default : SoftEqual :=
  ⟨detail.SoftEqualTraits.rel_prec, detail.SoftEqualTraits.abs_thresh⟩

/-- Modelled from the spec: `SoftEqual::operator()(expected, actual)` (its body
is in SoftEqual.i.hh, absent); "returns true iff
`|actual-expected| <= rel*|expected| OR |actual-expected| <= abs`". -/
def call (f : SoftEqual) (expected actual : real_type) : Bool :=
  decide (|actual - expected| ≤ f.rel_ * |expected|)
    || decide (|actual - expected| ≤ f.abs_)

end SoftEqual

/-- The class `SoftZero<real_type>`: its private member `abs_`;
`SoftZero.mk abs` is the one-argument constructor. -/
structure SoftZero where
  abs_ : real_type
  deriving DecidableEq

namespace SoftZero

/-- Accessor `abs()`. -/
def abs (f : SoftZero) : real_type := f.abs_

/-- Modelled from the spec: the default constructor `SoftZero()` (its body is
in SoftEqual.i.hh, absent); the default absolute tolerance. -/
def mk_default : SoftZero := ⟨detail.SoftEqualTraits.abs_thresh⟩

/-- Modelled from the spec: `SoftZero::operator()(actual)` (its body is in
SoftEqual.i.hh, absent); "returns true iff `|actual| <= abs`". -/
def call (f : SoftZero) (actual : real_type) : Bool :=
  decide (|actual| ≤ f.abs_)

end SoftZero

/-- The free function `soft_equal`:
`return SoftEqual<RealType>()(expected, actual);` -/
def soft_equal (expected actual : real_type) : Bool :=
  SoftEqual.mk_default.call expected actual

/-- The free function `soft_zero`: `return SoftZero<RealType>()(actual);` -/
def soft_zero (actual : real_type) : Bool :=
  SoftZero.mk_default.call actual

/-! ## base/Assert.hh -/

/-- The enumeration `enum class DebugErrorType`, with its four enumerators in
source order. -/
inductive DebugErrorType where
  | precondition
  | internal
  | unreachable
  | postcondition
  deriving DecidableEq, Repr

/-- Lookup of the qualified name `::celeritas::DebugErrorType::WHICH` that a
macro expansion spells with the token `WHICH`: the enumerator of that name, or
`none` when the enumeration declares no such enumerator. -/
def DebugErrorType.ofToken : String → Option DebugErrorType
  | "precondition" => some .precondition
  | "internal" => some .internal
  | "unreachable" => some .unreachable
  | "postcondition" => some .postcondition
  | _ => none

/-- The two exception classes of Assert.hh, `DebugError` (a `std::logic_error`)
and `RuntimeError` (a `std::runtime_error`), each recorded with the arguments of
the `throw_..._error` call that built it. -/
inductive Thrown where
  | DebugError (which : DebugErrorType) (condition file : String) (line : Nat)
  | RuntimeError (msg condition file : String) (line : Nat)
  deriving DecidableEq, Repr

/-- What executing one macro use does, from a program state of type `σ`. -/
inductive Outcome (σ : Type) where
  /-- control falls through the macro; `s` is the state after it -/
  | normal (s : σ)
  /-- an exception propagates out of the macro; `s` is the state at the throw -/
  | thrown (e : Thrown) (s : σ)
  /-- the device-side `assert` failed -/
  | device_assert (s : σ)
  /-- control reached `CELER_UNREACHABLE` (Macros.hh), the optimizer hint -/
  | unreachable_hint
  /-- the expansion names an enumerator that `DebugErrorType` does not declare -/
  | ill_formed
  deriving DecidableEq, Repr

/-- A condition expression `COND` handed to a macro: its source text (`#COND`)
and its evaluation, which yields the truth value and the state after any side
effect of the expression. -/
structure Cond (σ : Type) where
  text : String
  eval : σ → Bool × σ

/-- The literal condition `false` of `CHECK_UNREACHABLE`. -/
def Cond.lit_false {σ : Type} : Cond σ := ⟨"false", fun s => (false, s)⟩

/-- The preprocessor state the macros branch on: the value of `CELERITAS_DEBUG`,
whether `__CUDA_ARCH__` is defined (device code), and whether `NDEBUG` is
defined (it turns the `assert` of `CELER_CUDA_ASSERT_` into nothing). -/
structure BuildConfig where
  CELERITAS_DEBUG : Bool
  CUDA_ARCH : Bool
  NDEBUG : Bool
  deriving DecidableEq, Repr

/-- Modelled from the spec: the body of `throw_debug_error` (Assert.cc is
absent); its declaration reads "Construct and throw a DebugError" and is
`[[noreturn]]`. -/
def throw_debug_error {σ : Type} (which : DebugErrorType)
    (condition file : String) (line : Nat) (s : σ) : Outcome σ :=
  .thrown (.DebugError which condition file line) s

/-- Modelled from the spec: the body of `throw_runtime_error` (Assert.cc is
absent); its declaration reads "Construct and throw a RuntimeError" and is
`[[noreturn]]`. -/
def throw_runtime_error {σ : Type} (msg condition file : String) (line : Nat)
    (s : σ) : Outcome σ :=
  .thrown (.RuntimeError msg condition file line) s

/-- The macro `CELER_CUDA_ASSERT_(COND)`: `assert(COND);`.  With `NDEBUG`
defined `assert` expands to nothing and `COND` is not evaluated; otherwise
`COND` is evaluated and a false value stops the kernel. -/
def CELER_CUDA_ASSERT_ {σ : Type} (ndebug : Bool) (c : Cond σ) (s : σ) :
    Outcome σ :=
  if ndebug then .normal s
  else
    let r := c.eval s
    if r.1 then .normal r.2 else .device_assert r.2

/-- The macro `CELER_DEBUG_ASSERT_(COND, WHICH)`:
`if (!(COND)) throw_debug_error(DebugErrorType::WHICH, #COND, __FILE__, __LINE__);` -/
def CELER_DEBUG_ASSERT_ {σ : Type} (c : Cond σ) (WHICH : String)
    (file : String) (line : Nat) (s : σ) : Outcome σ :=
  match DebugErrorType.ofToken WHICH with
  | none => .ill_formed
  | some which =>
    let r := c.eval s
    if !r.1 then throw_debug_error which c.text file line r.2
    else .normal r.2

/-- The macro `CELER_RUNTIME_ASSERT_(COND, MSG)`: when `!(COND)`, stream `MSG`
into a `std::ostringstream` and call
`throw_runtime_error(msg.str(), #COND, __FILE__, __LINE__)`.  `msg` is the text
that streaming `MSG` produces. -/
def CELER_RUNTIME_ASSERT_ {σ : Type} (c : Cond σ) (msg : String)
    (file : String) (line : Nat) (s : σ) : Outcome σ :=
  let r := c.eval s
  if !r.1 then throw_runtime_error msg c.text file line r.2
  else .normal r.2

/-- The short-circuit conjunction `a && (COND)` of C++: `COND` is evaluated only
when `a` is true. -/
def and_then {σ : Type} (a : Bool) (c : Cond σ) (s : σ) : Bool × σ :=
  if a then c.eval s else (false, s)

/-- The macro `CELER_NOASSERT_(COND)`: `if (false && (COND)) {}` -/
def CELER_NOASSERT_ {σ : Type} (c : Cond σ) (s : σ) : Outcome σ :=
  let r := and_then false c s
  if r.1 then .normal r.2 else .normal r.2

/-- The macro `REQUIRE(COND)` under the three preprocessor branches. -/
def REQUIRE {σ : Type} (cfg : BuildConfig) (c : Cond σ) (file : String)
    (line : Nat) (s : σ) : Outcome σ :=
  if cfg.CELERITAS_DEBUG && cfg.CUDA_ARCH then CELER_CUDA_ASSERT_ cfg.NDEBUG c s
  else if cfg.CELERITAS_DEBUG && !cfg.CUDA_ARCH then
    CELER_DEBUG_ASSERT_ c "precondition" file line s
  else CELER_NOASSERT_ c s

/-- The macro `CHECK(COND)` under the three preprocessor branches. -/
def CHECK {σ : Type} (cfg : BuildConfig) (c : Cond σ) (file : String)
    (line : Nat) (s : σ) : Outcome σ :=
  if cfg.CELERITAS_DEBUG && cfg.CUDA_ARCH then CELER_CUDA_ASSERT_ cfg.NDEBUG c s
  else if cfg.CELERITAS_DEBUG && !cfg.CUDA_ARCH then
    CELER_DEBUG_ASSERT_ c "internal" file line s
  else CELER_NOASSERT_ c s

/-- The macro `ENSURE(COND)` under the three preprocessor branches. -/
def ENSURE {σ : Type} (cfg : BuildConfig) (c : Cond σ) (file : String)
    (line : Nat) (s : σ) : Outcome σ :=
  if cfg.CELERITAS_DEBUG && cfg.CUDA_ARCH then CELER_CUDA_ASSERT_ cfg.NDEBUG c s
  else if cfg.CELERITAS_DEBUG && !cfg.CUDA_ARCH then
    CELER_DEBUG_ASSERT_ c "postcondition" file line s
  else CELER_NOASSERT_ c s

/-- The macro `CHECK_UNREACHABLE` under the three preprocessor branches; the
last one is `CELER_UNREACHABLE` of Macros.hh. -/
def CHECK_UNREACHABLE {σ : Type} (cfg : BuildConfig) (file : String)
    (line : Nat) (s : σ) : Outcome σ :=
  if cfg.CELERITAS_DEBUG && cfg.CUDA_ARCH then
    CELER_CUDA_ASSERT_ cfg.NDEBUG Cond.lit_false s
  else if cfg.CELERITAS_DEBUG && !cfg.CUDA_ARCH then
    CELER_DEBUG_ASSERT_ Cond.lit_false "unreachable" file line s
  else .unreachable_hint

/-- The macro `INSIST(COND, MSG)`: `CELER_RUNTIME_ASSERT_(COND, MSG)` in host
code; in device code the call
`throw_debug_error(DebugErrorType::assertion, "Insist cannot be called from device code", __FILE__, __LINE__)`,
which does not mention `COND`. -/
def INSIST {σ : Type} (cfg : BuildConfig) (c : Cond σ) (msg : String)
    (file : String) (line : Nat) (s : σ) : Outcome σ :=
  if !cfg.CUDA_ARCH then CELER_RUNTIME_ASSERT_ c msg file line s
  else
    match DebugErrorType.ofToken "assertion" with
    | none => .ill_formed
    | some which =>
      throw_debug_error which "Insist cannot be called from device code"
        file line s

/-- A debug build of host code: `CELERITAS_DEBUG` set, `__CUDA_ARCH__` not
defined, `NDEBUG` either way. -/
def BuildConfig.debug_host (ndebug : Bool) : BuildConfig := ⟨true, false, ndebug⟩

/-! ## physics/base/PDGNumber.hh -/

/-- The opaque identifier `PDGNumber = OpaqueId<struct PDG, int>`, by the
integer code it wraps ("can be negative"). -/
structure PDGNumber where
  value : Int
  deriving DecidableEq, Repr

namespace pdg

/-- The definition `CELER_DEFINE_PDGNUMBER(electron, 11)`. -/
def electron : PDGNumber := ⟨11⟩

/-- The definition `CELER_DEFINE_PDGNUMBER(positron, -11)`. -/
def positron : PDGNumber := ⟨-11⟩

/-- The definition `CELER_DEFINE_PDGNUMBER(mu_minus, 13)`. -/
def mu_minus : PDGNumber := ⟨13⟩

/-- The definition `CELER_DEFINE_PDGNUMBER(mu_plus, -13)`. -/
def mu_plus : PDGNumber := ⟨-13⟩

/-- The definition `CELER_DEFINE_PDGNUMBER(gamma, 22)`. -/
def gamma : PDGNumber := ⟨22⟩

/-- The definition `CELER_DEFINE_PDGNUMBER(pi_plus, 211)`. -/
def pi_plus : PDGNumber := ⟨211⟩

/-- The definition `CELER_DEFINE_PDGNUMBER(pi_minus, -211)`. -/
def pi_minus : PDGNumber := ⟨-211⟩

/-- The definition `CELER_DEFINE_PDGNUMBER(kaon_plus, 321)`. -/
def kaon_plus : PDGNumber := ⟨321⟩

/-- The definition `CELER_DEFINE_PDGNUMBER(kaon_minus, -321)`. -/
def kaon_minus : PDGNumber := ⟨-321⟩

/-- The definition `CELER_DEFINE_PDGNUMBER(proton, 2212)`. -/
def proton : PDGNumber := ⟨2212⟩

/-- The definition `CELER_DEFINE_PDGNUMBER(anti_proton, -2212)`. -/
def anti_proton : PDGNumber := ⟨-2212⟩

/-- The definition `CELER_DEFINE_PDGNUMBER(he3, 1000020030)`. -/
def he3 : PDGNumber := ⟨1000020030⟩

/-- The definition `CELER_DEFINE_PDGNUMBER(anti_he3, -1000020030)`. -/
def anti_he3 : PDGNumber := ⟨-1000020030⟩

/-- The definition `CELER_DEFINE_PDGNUMBER(alpha, 1000020040)`. -/
def alpha : PDGNumber := ⟨1000020040⟩

/-- The definition `CELER_DEFINE_PDGNUMBER(anti_alpha, -1000020040)`. -/
def anti_alpha : PDGNumber := ⟨-1000020040⟩

/-- The definition `CELER_DEFINE_PDGNUMBER(deuteron, 1000010020)`. -/
def deuteron : PDGNumber := ⟨1000010020⟩

/-- The definition `CELER_DEFINE_PDGNUMBER(anti_deuteron, -1000010020)`. -/
def anti_deuteron : PDGNumber := ⟨-1000010020⟩

/-- The definition `CELER_DEFINE_PDGNUMBER(triton, 1000010030)`. -/
def triton : PDGNumber := ⟨1000010030⟩

/-- The definition `CELER_DEFINE_PDGNUMBER(anti_triton, -1000010030)`. -/
def anti_triton : PDGNumber := ⟨-1000010030⟩

/-- The definitions of namespace `pdg`, in the order the header lists them
(lines 39 to 57). -/
def definitions : List PDGNumber :=
  [electron, positron, mu_minus, mu_plus, gamma, pi_plus, pi_minus, kaon_plus,
    kaon_minus, proton, anti_proton, he3, anti_he3, alpha, anti_alpha, deuteron,
    anti_deuteron, triton, anti_triton]

/-- The sort key of the header's comment `// Sorted by (abs(val), val < 0)`. -/
def sort_key (p : PDGNumber) : Nat × Bool :=
  (p.value.natAbs, decide (p.value < 0))

/-- Strict order of two sort keys, as tuples compare: by the first component,
then by the second with `false` before `true`. -/
def key_lt (k1 k2 : Nat × Bool) : Bool :=
  decide (k1.1 < k2.1) || (k1.1 == k2.1 && (!k1.2 && k2.2))

/-- The pairs of consecutive entries of a list. -/
def consecutive (l : List PDGNumber) : List (PDGNumber × PDGNumber) :=
  l.zip l.tail

/-- Whether a list is sorted by the key: each entry's key lies strictly below
the next entry's. -/
def sorted_by_key (l : List PDGNumber) : Bool :=
  (consecutive l).all fun pq => key_lt (sort_key pq.1) (sort_key pq.2)

end pdg

/-! ## Energies and interactor validity ranges -/

namespace units

/-- The quantity `units::MevEnergy` (physics/base/Units.hh is absent), by the
number of MeV it holds: a `real_type` value, or `⊤` for the positive infinity
that `real_type` also has. -/
structure MevEnergy where
  value : WithTop real_type

/-- Number of MeV in one GeV (the prefixes giga and mega differ by `10^3`). -/
def mev_per_gev : real_type := 1000

end units

/-- Modelled from the spec: `celeritas::numeric_limits<real_type>::infinity()`
(base/Algorithms.hh is absent); positive infinity ("unbounded above"). -/
def numeric_limits.infinity : WithTop real_type := ⊤

/-- A direction or position `Real3` (base/Types.hh): three `real_type`s. -/
abbrev Real3 : Type := real_type × real_type × real_type

/-- Modelled from the spec: `Secondary` (physics/base/Secondary.hh is absent);
"one produced particle — type, energy, direction". -/
structure Secondary where
  particle : PDGNumber
  energy : real_type
  direction : Real3
  deriving DecidableEq

/-- Modelled from the spec: the arena behind `SecondaryAllocatorView`
(physics/base/SecondaryAllocatorView.hh is absent); "a fixed-capacity
contiguous region of Secondary slots plus an atomically-incremented cursor".
`slots` is the region (`none` for a slot nothing was written to), its length the
capacity; `cursor` counts the slots handed out so far, the committed
secondaries. -/
structure SecondaryAllocatorView where
  slots : List (Option Secondary)
  cursor : Nat
  deriving DecidableEq

namespace SecondaryAllocatorView

/-- Capacity of the arena: the number of slots of its region. -/
def capacity (a : SecondaryAllocatorView) : Nat := a.slots.length

/-- Remaining capacity: slots not handed out yet. -/
def remaining (a : SecondaryAllocatorView) : Nat := a.capacity - a.cursor

/-- Modelled from the spec: `allocate(n)` (SecondaryAllocatorView.i.hh is
absent); "atomically reserve `n` contiguous slots.  Returns a pointer/handle to
the reserved region on success; returns a null/empty result (not an exception)
when the arena's remaining capacity < n".  The handle is the index of the first
reserved slot. -/
def allocate (a : SecondaryAllocatorView) (n : Nat) :
    Option Nat × SecondaryAllocatorView :=
  if a.remaining < n then (none, a)
  else (some a.cursor, { a with cursor := a.cursor + n })

/-- Write `sec` into slot `i` of the region. -/
def write (a : SecondaryAllocatorView) (i : Nat) (sec : Secondary) :
    SecondaryAllocatorView :=
  { a with slots := a.slots.set i (some sec) }

end SecondaryAllocatorView

/-- Modelled from the spec: the status of an `Interaction`
(physics/base/Interaction.hh is absent); "status (success /
failed-allocation)". -/
inductive InteractionStatus where
  | success
  | failed_allocation
  deriving DecidableEq, Repr

/-- Modelled from the spec: `Interaction` (physics/base/Interaction.hh is
absent); "updated primary energy/direction (or "absorbed" sentinel), a
count/span of newly written Secondary entries (pointing into the arena), and a
status".  `primary = none` is the absorbed sentinel; the span is its first
index and its length. -/
structure Interaction where
  status : InteractionStatus
  primary : Option (real_type × Real3)
  secondaries_begin : Nat
  secondaries_size : Nat
  deriving DecidableEq

/-- Modelled from the spec: the random-number source of an invocation, the
template argument `Engine` of `operator()`; "a random-number source satisfying
'produces uniform reals in [0,1) on demand'".  `variates` is the sequence the
source produces and `drawn` the number of variates taken from it so far. -/
structure Engine where
  variates : Nat → real_type
  drawn : Nat

/-- One draw: the next variate of the sequence, and the source one step on. -/
def Engine.draw (rng : Engine) : real_type × Engine :=
  (rng.variates rng.drawn, ⟨rng.variates, rng.drawn + 1⟩)

/-- The state of a `BetheHeitlerInteractor` that one invocation reads: the
members `inc_energy_` and `inc_direction_`.  The members `shared_`, `element_`
and `epsilon0_` enter only the model functions of `BetheHeitlerSampling`; the
member `allocate_` is the arena that `call` threads. -/
structure BetheHeitlerInteractor where
  inc_energy_ : real_type
  inc_direction_ : Real3

/-- Modelled from the spec: the model-specific functions that the sampling
contract names without giving a formula (the bodies are in
BetheHeitlerInteractor.i.hh, absent).
* `candidate`: "draw a candidate partition value from the envelope", as a
  function of the uniform variate drawn for it;
* `acceptance`: the quotient "(true density / envelope density) at that
  candidate";
* `construct`: steps 4 and 5, the angles and the two secondaries "with
  energy/direction derived from conservation laws applied to the sampled
  partition and angles", with the source after the draws of step 4. -/
structure BetheHeitlerSampling where
  candidate : BetheHeitlerInteractor → real_type → real_type
  acceptance : BetheHeitlerInteractor → real_type → real_type
  construct : BetheHeitlerInteractor → real_type → Engine →
    (Secondary × Secondary) × Engine

namespace BetheHeitlerInteractor

/-- The static member `min_incident_energy()`:
`return units::MevEnergy{1.5}; // 1.5 MeV` -/
def min_incident_energy : units.MevEnergy := ⟨((3 / 2 : real_type) : WithTop real_type)⟩

/-- The static member `max_incident_energy()`:
`return units::MevEnergy{100000.0}; // 100 GeV` -/
def max_incident_energy : units.MevEnergy := ⟨((100000 : real_type) : WithTop real_type)⟩

/-- Modelled from the spec: the rejection loop of the sampling contract, step 3;
"Repeat: draw a candidate partition value from the envelope; draw a uniform
variate; accept the candidate iff the uniform variate ≤ (true density /
envelope density) at that candidate.  Loop has no hard iteration cap".  `fuel`
bounds the number of iterations looked at: the result is the accepted candidate
with the source after its draws, or `none` when none of the first `fuel`
iterations accepts (the loop is still running). -/
def rejection_loop (m : BetheHeitlerSampling) (self : BetheHeitlerInteractor) :
    Nat → Engine → Option (real_type × Engine)
  | 0, _ => none
  | fuel + 1, rng =>
    let c := rng.draw
    let eps := m.candidate self c.1
    let u := c.2.draw
    if u.1 ≤ m.acceptance self eps then some (eps, u.2)
    else rejection_loop m self fuel u.2

/-- Modelled from the spec: `BetheHeitlerInteractor::operator()(rng)`
(BetheHeitlerInteractor.i.hh is absent), after the sampling and outcome
contracts of the interactor pattern, in the order of its steps: the rejection
loop (step 3), then the angles and the construction of the two secondaries
(steps 4 and 5), then "request allocation for the needed count from the
allocator".  On failure "return Interaction with status = failed-allocation",
writing nothing (the primary is left as it came); on success write the two
secondaries into the reserved slots and return the absorbed primary with the
span of the two.  The result is `none` when the rejection loop accepts in none
of its first `fuel` iterations: the invocation has not returned. -/
def call (self : BetheHeitlerInteractor) (m : BetheHeitlerSampling)
    (fuel : Nat) (rng : Engine) (arena : SecondaryAllocatorView) :
    Option (Interaction × Engine × SecondaryAllocatorView) :=
  match rejection_loop m self fuel rng with
  | none => none
  | some (eps, rng1) =>
    let built := m.construct self eps rng1
    match arena.allocate 2 with
    | (none, arena1) =>
      some (⟨.failed_allocation, some (self.inc_energy_, self.inc_direction_), 0, 0⟩,
        built.2, arena1)
    | (some first, arena1) =>
      let arena2 := (arena1.write first built.1.1).write (first + 1) built.1.2
      some (⟨.success, none, first, 2⟩, built.2, arena2)

end BetheHeitlerInteractor

namespace PhotoelectricInteractor

/-- The static member `min_incident_energy()`: `return MevEnergy{0};` -/
def min_incident_energy : units.MevEnergy := ⟨((0 : real_type) : WithTop real_type)⟩

/-- The static member `max_incident_energy()`:
`return MevEnergy{celeritas::numeric_limits<real_type>::infinity()};` -/
def max_incident_energy : units.MevEnergy := ⟨numeric_limits.infinity⟩

end PhotoelectricInteractor

/-! ## Theorems: soft equality -/

/-- The result of `SoftEqual::operator()` as a proposition. -/
theorem SoftEqual.call_iff_within (f : SoftEqual) (expected actual : real_type) :
    f.call expected actual = true ↔
      |actual - expected| ≤ f.rel_ * |expected| ∨ |actual - expected| ≤ f.abs_ := by
  simp [SoftEqual.call]

/-- The result of `SoftZero::operator()` as a proposition. -/
theorem SoftZero.call_iff_le (f : SoftZero) (actual : real_type) :
    f.call actual = true ↔ |actual| ≤ f.abs_ := by
  simp [SoftZero.call]

/-- C1: for all tolerances `rel`, `abs` and all `expected`, `actual`, the functor
`SoftEqual(rel, abs)` returns true exactly when
`|actual - expected| ≤ rel * |expected|` or `|actual - expected| ≤ abs`, and
`soft_equal` is the same with `rel = 1e-12`, `abs = 1e-14`; a difference equal
to `rel * |expected|` or equal to `abs` is accepted, and a difference above both
thresholds is rejected. -/
theorem soft_equal_contract (rel abs expected actual : real_type) :
    ((SoftEqual.mk rel abs).call expected actual = true ↔
        |actual - expected| ≤ rel * |expected| ∨ |actual - expected| ≤ abs)
    ∧ (soft_equal expected actual = true ↔
        |actual - expected| ≤ 1 / 10 ^ 12 * |expected|
          ∨ |actual - expected| ≤ 1 / 10 ^ 14)
    ∧ (|actual - expected| = rel * |expected| →
        (SoftEqual.mk rel abs).call expected actual = true)
    ∧ (|actual - expected| = abs →
        (SoftEqual.mk rel abs).call expected actual = true)
    ∧ (rel * |expected| < |actual - expected| → abs < |actual - expected| →
        (SoftEqual.mk rel abs).call expected actual = false) := by
  refine ⟨SoftEqual.call_iff_within _ _ _, ?_, ?_, ?_, ?_⟩
  · exact SoftEqual.call_iff_within _ _ _
  · intro h
    exact (SoftEqual.call_iff_within _ _ _).mpr (Or.inl (le_of_eq h))
  · intro h
    exact (SoftEqual.call_iff_within _ _ _).mpr (Or.inr (le_of_eq h))
  · intro h1 h2
    rw [← Bool.not_eq_true, SoftEqual.call_iff_within]
    rintro (h | h)
    · exact absurd h (not_le.mpr h1)
    · exact absurd h (not_le.mpr h2)

/-- Witness of C1 at `rel = 1/10`, `abs = 1/100`, `expected = 10`,
`actual = 11`: the difference `1` equals `rel * |expected|`. -/
theorem soft_equal_contract_witness :
    (SoftEqual.mk (1 / 10) (1 / 100)).call 10 11 = true :=
  (soft_equal_contract (1 / 10) (1 / 100) 10 11).2.2.1 (by norm_num)

/-- C2: for every absolute tolerance `abs` and every `actual`, the functor
`SoftZero(abs)` returns true exactly when `|actual| ≤ abs`, `soft_zero` is the
same with `abs = 1e-14`, and `soft_zero` is the default-constructed functor
applied to its argument. -/
theorem soft_zero_contract (abs actual : real_type) :
    ((SoftZero.mk abs).call actual = true ↔ |actual| ≤ abs)
    ∧ (soft_zero actual = true ↔ |actual| ≤ 1 / 10 ^ 14)
    ∧ soft_zero actual = SoftZero.mk_default.call actual :=
  ⟨SoftZero.call_iff_le _ _, SoftZero.call_iff_le _ _, rfl⟩

/-- C3: whenever the tolerances `rel` and `abs` are non-negative (one of the two
being so is enough) every value is softly equal to itself; so it is under the
default tolerances; and zero is softly zero. -/
theorem soft_equal_refl (rel abs x : real_type) (h : 0 ≤ rel ∨ 0 ≤ abs) :
    (SoftEqual.mk rel abs).call x x = true
    ∧ soft_equal x x = true
    ∧ soft_zero 0 = true := by
  refine ⟨?_, ?_, ?_⟩
  · rw [SoftEqual.call_iff_within]
    rcases h with h | h
    · left
      simpa using mul_nonneg h (abs_nonneg x)
    · right
      simpa using h
  · rw [soft_equal, SoftEqual.call_iff_within]
    right
    simp [SoftEqual.mk_default, detail.SoftEqualTraits.abs_thresh]
  · rw [soft_zero, SoftZero.call_iff_le]
    simp [SoftZero.mk_default, detail.SoftEqualTraits.abs_thresh]

/-- Witness of C3 at `rel = 1/2`, `abs = 0`, `x = 7`. -/
theorem soft_equal_refl_witness :
    (0 : real_type) ≤ 1 / 2 ∧ (0 : real_type) ≤ 0
    ∧ (SoftEqual.mk (1 / 2) 0).call 7 7 = true
    ∧ soft_equal 7 7 = true
    ∧ soft_zero 0 = true :=
  ⟨by norm_num, le_refl 0, soft_equal_refl (1 / 2) 0 7 (Or.inl (by norm_num))⟩

/-- C4: under the default tolerances soft equality is not commutative: with
`a = 2` and `b = 2 - 2e-12`, `soft_equal a b` holds (the difference `2e-12` is
`rel * |a|`) and `soft_equal b a` fails (the difference exceeds `rel * |b|` and
`abs`). -/
theorem soft_equal_not_commutative :
    ∃ a b : real_type, soft_equal a b = true ∧ soft_equal b a = false := by
  refine ⟨2, 2 - 2 / 10 ^ 12, ?_, ?_⟩
  · rw [soft_equal, SoftEqual.call_iff_within]
    left
    simp only [SoftEqual.mk_default, detail.SoftEqualTraits.rel_prec]
    norm_num [abs_of_nonneg, abs_of_nonpos]
  · rw [← Bool.not_eq_true, soft_equal, SoftEqual.call_iff_within]
    simp only [SoftEqual.mk_default, detail.SoftEqualTraits.rel_prec,
      detail.SoftEqualTraits.abs_thresh]
    norm_num [abs_of_nonneg, abs_of_nonpos]

/-! ## Theorems: assertion macros -/

/-- C5: in a debug build of host code, for every condition `c` and every state,
`REQUIRE(c)` raises a `DebugError` tagged `precondition` when `c` evaluates to
false and falls through when it evaluates to true; `CHECK(c)` does so with the
tag `internal`, `ENSURE(c)` with the tag `postcondition`; `CHECK_UNREACHABLE`
always raises one tagged `unreachable`.  The error carries the text of the
condition and the file and line of the macro use. -/
theorem debug_assertions_raise_own_kind {σ : Type} (ndebug : Bool) (c : Cond σ)
    (file : String) (line : Nat) (s : σ) :
    REQUIRE (BuildConfig.debug_host ndebug) c file line s =
      (if (c.eval s).1 then Outcome.normal (c.eval s).2
       else Outcome.thrown (.DebugError .precondition c.text file line) (c.eval s).2)
    ∧ CHECK (BuildConfig.debug_host ndebug) c file line s =
      (if (c.eval s).1 then Outcome.normal (c.eval s).2
       else Outcome.thrown (.DebugError .internal c.text file line) (c.eval s).2)
    ∧ ENSURE (BuildConfig.debug_host ndebug) c file line s =
      (if (c.eval s).1 then Outcome.normal (c.eval s).2
       else Outcome.thrown (.DebugError .postcondition c.text file line) (c.eval s).2)
    ∧ CHECK_UNREACHABLE (BuildConfig.debug_host ndebug) file line s =
      Outcome.thrown (.DebugError .unreachable "false" file line) s := by
  refine ⟨?_, ?_, ?_, ?_⟩
  · cases hc : (c.eval s).1 <;>
      simp [REQUIRE, BuildConfig.debug_host, CELER_DEBUG_ASSERT_,
        DebugErrorType.ofToken, throw_debug_error, hc]
  · cases hc : (c.eval s).1 <;>
      simp [CHECK, BuildConfig.debug_host, CELER_DEBUG_ASSERT_,
        DebugErrorType.ofToken, throw_debug_error, hc]
  · cases hc : (c.eval s).1 <;>
      simp [ENSURE, BuildConfig.debug_host, CELER_DEBUG_ASSERT_,
        DebugErrorType.ofToken, throw_debug_error, hc]
  · simp [CHECK_UNREACHABLE, BuildConfig.debug_host, CELER_DEBUG_ASSERT_,
      DebugErrorType.ofToken, throw_debug_error, Cond.lit_false]

/-- C6: `INSIST(c, msg)` is a runtime check whether or not debug assertions are
enabled.  In host code, for either value of `CELERITAS_DEBUG`: when `c`
evaluates to false it raises a `RuntimeError` carrying the message, the text of
the condition and the file and line of the macro use; when `c` evaluates to
true it falls through, raising nothing; it never raises a `DebugError`; and a
debug build and a release build behave alike. -/
theorem insist_host_runtime_error {σ : Type} (debug ndebug : Bool) (c : Cond σ)
    (msg file : String) (line : Nat) (s : σ) :
    INSIST ⟨debug, false, ndebug⟩ c msg file line s =
      (if (c.eval s).1 then Outcome.normal (c.eval s).2
       else Outcome.thrown (.RuntimeError msg c.text file line) (c.eval s).2)
    ∧ (∀ (which : DebugErrorType) (condition file1 : String) (line1 : Nat) (s1 : σ),
        INSIST ⟨debug, false, ndebug⟩ c msg file line s
          ≠ Outcome.thrown (.DebugError which condition file1 line1) s1)
    ∧ INSIST ⟨true, false, ndebug⟩ c msg file line s
        = INSIST ⟨false, false, ndebug⟩ c msg file line s := by
  have h : INSIST ⟨debug, false, ndebug⟩ c msg file line s =
      (if (c.eval s).1 then Outcome.normal (c.eval s).2
       else Outcome.thrown (.RuntimeError msg c.text file line) (c.eval s).2) := by
    cases hc : (c.eval s).1 <;>
      simp [INSIST, CELER_RUNTIME_ASSERT_, throw_runtime_error, hc]
  refine ⟨h, ?_, ?_⟩
  · intro which condition file1 line1 s1
    rw [h]
    cases hc : (c.eval s).1 <;> simp
  · simp [INSIST]

/-- C7: in a release build (`CELERITAS_DEBUG` off, host or device code), for
every condition `c`, `REQUIRE(c)`, `CHECK(c)` and `ENSURE(c)` fall through with
the state they were entered in: nothing is raised and `c` is not evaluated,
whatever it would have returned or changed. -/
theorem release_assertions_compiled_out {σ : Type} (cuda ndebug : Bool)
    (c : Cond σ) (file : String) (line : Nat) (s : σ) :
    REQUIRE ⟨false, cuda, ndebug⟩ c file line s = Outcome.normal s
    ∧ CHECK ⟨false, cuda, ndebug⟩ c file line s = Outcome.normal s
    ∧ ENSURE ⟨false, cuda, ndebug⟩ c file line s = Outcome.normal s := by
  refine ⟨?_, ?_, ?_⟩ <;>
    simp [REQUIRE, CHECK, ENSURE, CELER_NOASSERT_, and_then]

/-- A condition with a side effect, `++n > 0` on a counter `n`, is evaluated
by `REQUIRE` in a debug host build (the counter advances) and is not in a
release build (the counter stays). -/
theorem require_side_effect_example :
    REQUIRE (BuildConfig.debug_host false)
        (⟨"++n > 0", fun n => (decide (0 < n + 1), n + 1)⟩ : Cond Nat) "Foo.cc" 10 0
      = Outcome.normal 1
    ∧ REQUIRE ⟨false, false, false⟩
        (⟨"++n > 0", fun n => (decide (0 < n + 1), n + 1)⟩ : Cond Nat) "Foo.cc" 10 0
      = Outcome.normal 0 := by
  constructor <;>
    simp [REQUIRE, BuildConfig.debug_host, CELER_DEBUG_ASSERT_,
      DebugErrorType.ofToken, CELER_NOASSERT_, and_then]

/-- In a debug build of device code `REQUIRE(c)` is the device `assert`: with
`NDEBUG` defined it does nothing and does not evaluate `c`; without it, it
evaluates `c` and stops on a false value. -/
theorem require_debug_device {σ : Type} (c : Cond σ) (file : String)
    (line : Nat) (s : σ) :
    REQUIRE ⟨true, true, true⟩ c file line s = Outcome.normal s
    ∧ REQUIRE ⟨true, true, false⟩ c file line s =
      (if (c.eval s).1 then Outcome.normal (c.eval s).2
       else Outcome.device_assert (c.eval s).2) := by
  constructor <;> simp [REQUIRE, CELER_CUDA_ASSERT_]

/-! ## Theorems: validity ranges -/

/-- C8: the Bethe-Heitler validity range is `[1.5 MeV, 100000 MeV]`:
`min_incident_energy()` is exactly 1.5 MeV, `max_incident_energy()` is exactly
100000 MeV, that is 100 GeV, and the minimum lies strictly below the maximum.
Both are constants: as static members they take no interactor. -/
theorem bethe_heitler_validity_range :
    BetheHeitlerInteractor.min_incident_energy.value
        = ((3 / 2 : real_type) : WithTop real_type)
    ∧ BetheHeitlerInteractor.max_incident_energy.value
        = ((100000 : real_type) : WithTop real_type)
    ∧ BetheHeitlerInteractor.max_incident_energy.value
        = ((100 * units.mev_per_gev : real_type) : WithTop real_type)
    ∧ BetheHeitlerInteractor.min_incident_energy.value
        < BetheHeitlerInteractor.max_incident_energy.value := by
  refine ⟨rfl, rfl, ?_, ?_⟩
  · simp only [BetheHeitlerInteractor.max_incident_energy, units.mev_per_gev]
    norm_num
  · simp only [BetheHeitlerInteractor.min_incident_energy,
      BetheHeitlerInteractor.max_incident_energy, WithTop.coe_lt_coe]
    norm_num

/-- C9: the photoelectric validity range starts at zero and is unbounded above:
`min_incident_energy()` is exactly 0 MeV, `max_incident_energy()` is positive
infinity, every energy `E ≥ 0` lies between the two, and no positive energy lies
below the minimum. -/
theorem photoelectric_validity_range (E : WithTop real_type) :
    PhotoelectricInteractor.min_incident_energy.value = 0
    ∧ PhotoelectricInteractor.max_incident_energy.value = ⊤
    ∧ (0 ≤ E → PhotoelectricInteractor.min_incident_energy.value ≤ E
        ∧ E ≤ PhotoelectricInteractor.max_incident_energy.value)
    ∧ (0 < E → ¬ E < PhotoelectricInteractor.min_incident_energy.value) := by
  have hmin : PhotoelectricInteractor.min_incident_energy.value = 0 := rfl
  have hmax : PhotoelectricInteractor.max_incident_energy.value = ⊤ := rfl
  refine ⟨hmin, hmax, ?_, ?_⟩
  · intro h
    rw [hmin, hmax]
    exact ⟨h, le_top⟩
  · intro h
    rw [hmin]
    exact not_lt.mpr (le_of_lt h)

/-- Witness of C9 at `E = 5` MeV. -/
theorem photoelectric_validity_range_witness :
    PhotoelectricInteractor.min_incident_energy.value ≤ ((5 : real_type) : WithTop real_type)
    ∧ ((5 : real_type) : WithTop real_type)
        ≤ PhotoelectricInteractor.max_incident_energy.value :=
  (photoelectric_validity_range ((5 : real_type) : WithTop real_type)).2.2.1
    (by exact_mod_cast (by norm_num : (0 : real_type) ≤ 5))

/-! ## Theorems: pair production on an exhausted arena -/

/-- Allocation from an arena with at least `n` slots left returns the cursor and
advances it by `n`. -/
theorem SecondaryAllocatorView.allocate_available (a : SecondaryAllocatorView)
    (n : Nat) (h : n ≤ a.remaining) :
    a.allocate n = (some a.cursor, ⟨a.slots, a.cursor + n⟩) := by
  simp [SecondaryAllocatorView.allocate, not_lt.mpr h]

/-- Looking at more iterations does not change what the rejection loop
accepted: once it accepts within `n` iterations it gives the same result for
every `fuel ≥ n`. -/
theorem BetheHeitlerInteractor.rejection_loop_mono (m : BetheHeitlerSampling)
    (self : BetheHeitlerInteractor) :
    ∀ (n fuel : Nat) (rng : Engine) (r : real_type × Engine), n ≤ fuel →
      BetheHeitlerInteractor.rejection_loop m self n rng = some r →
      BetheHeitlerInteractor.rejection_loop m self fuel rng = some r := by
  intro n
  induction n with
  | zero =>
    intro fuel rng r _ h
    simp [BetheHeitlerInteractor.rejection_loop] at h
  | succ k ih =>
    intro fuel rng r hle h
    obtain ⟨j, rfl⟩ : ∃ j, fuel = j + 1 := ⟨fuel - 1, by omega⟩
    simp only [BetheHeitlerInteractor.rejection_loop] at h ⊢
    split_ifs at h ⊢ with hacc
    · exact h
    · exact ih j _ r (by omega) h

/-- With two slots left, on a source on which the rejection loop accepts within
`n` iterations, the invocation succeeds for every `fuel ≥ n`: it reports the two
slots at the old cursor and advances the cursor by two, the capacity
unchanged. -/
theorem BetheHeitlerInteractor.call_success (self : BetheHeitlerInteractor)
    (m : BetheHeitlerSampling) (n fuel : Nat) (rng rng1 : Engine)
    (eps : real_type) (arena : SecondaryAllocatorView)
    (h : 2 ≤ arena.remaining)
    (hacc : BetheHeitlerInteractor.rejection_loop m self n rng = some (eps, rng1))
    (hfuel : n ≤ fuel) :
    ∃ out, self.call m fuel rng arena = some out
      ∧ out.1.status = InteractionStatus.success
      ∧ out.1.secondaries_begin = arena.cursor
      ∧ out.1.secondaries_size = 2
      ∧ out.2.2.cursor = arena.cursor + 2
      ∧ out.2.2.capacity = arena.capacity := by
  have hl := BetheHeitlerInteractor.rejection_loop_mono m self n fuel rng _ hfuel hacc
  simp [BetheHeitlerInteractor.call, hl,
    SecondaryAllocatorView.allocate_available _ _ h,
    SecondaryAllocatorView.write, SecondaryAllocatorView.capacity]

/-- The key order spelled out on the codes: the key of `p` lies below the key
of `q` exactly when `|p| < |q|`, or `|p| = |q|` with `p > 0` and `q < 0`. -/
theorem pdg.key_lt_iff (p q : PDGNumber) :
    pdg.key_lt (pdg.sort_key p) (pdg.sort_key q) = true ↔
      |p.value| < |q.value| ∨ (|p.value| = |q.value| ∧ 0 < p.value ∧ q.value < 0) := by
  have h1 : p.value.natAbs < q.value.natAbs ↔ |p.value| < |q.value| := by
    rw [Int.abs_eq_natAbs, Int.abs_eq_natAbs]
    exact Int.ofNat_lt.symm
  have h2 : p.value.natAbs = q.value.natAbs ↔ |p.value| = |q.value| := by
    rw [Int.abs_eq_natAbs, Int.abs_eq_natAbs]
    exact Int.ofNat_inj.symm
  simp only [pdg.key_lt, pdg.sort_key, Bool.or_eq_true, Bool.and_eq_true,
    decide_eq_true_eq, beq_iff_eq, Bool.not_eq_true', decide_eq_false_iff_not, h1, h2]
  constructor
  · rintro (h | ⟨he, hp, hq⟩)
    · exact Or.inl h
    · refine Or.inr ⟨he, ?_, hq⟩
      rcases lt_or_eq_of_le (not_lt.mp hp) with h | h
      · exact h
      · exfalso
        rw [← h, abs_zero] at he
        have := abs_eq_zero.mp he.symm
        omega
  · rintro (h | ⟨he, hp, hq⟩)
    · exact Or.inl h
    · exact Or.inr ⟨he, not_lt.mpr (le_of_lt hp), hq⟩

/-- C12 on the code: the list of definitions is not sorted by
`(abs(val), val < 0)`.  Exactly one pair of consecutive definitions is out of
order, `anti_alpha` (-1000020040) followed by `deuteron` (1000010020): neither
`|v1| < |v2|` nor `|v1| = |v2|` with `v1 > 0` and `v2 < 0` holds for it.  The
same definitions with `deuteron` to `anti_triton` placed before `he3` are
sorted. -/
theorem pdg_definitions_out_of_order :
    pdg.sorted_by_key pdg.definitions = false
    ∧ (pdg.consecutive pdg.definitions).filter
        (fun pq => !pdg.key_lt (pdg.sort_key pq.1) (pdg.sort_key pq.2))
      = [(pdg.anti_alpha, pdg.deuteron)]
    ∧ ¬ (|pdg.anti_alpha.value| < |pdg.deuteron.value|
        ∨ (|pdg.anti_alpha.value| = |pdg.deuteron.value|
            ∧ 0 < pdg.anti_alpha.value ∧ pdg.deuteron.value < 0))
    ∧ pdg.sorted_by_key
        [pdg.electron, pdg.positron, pdg.mu_minus, pdg.mu_plus, pdg.gamma,
          pdg.pi_plus, pdg.pi_minus, pdg.kaon_plus, pdg.kaon_minus, pdg.proton,
          pdg.anti_proton, pdg.deuteron, pdg.anti_deuteron, pdg.triton,
          pdg.anti_triton, pdg.he3, pdg.anti_he3, pdg.alpha, pdg.anti_alpha]
      = true := by
  refine ⟨by decide, by decide, ?_, by decide⟩
  rw [← pdg.key_lt_iff]
  decide

/-- C13: each antiparticle code of namespace `pdg` is the negation of its
particle's code, no defined code is zero, `gamma` is 22, and `gamma` is the one
defined code whose negation is not defined. -/
theorem pdg_antiparticles_negated :
    pdg.positron.value = -pdg.electron.value
    ∧ pdg.mu_plus.value = -pdg.mu_minus.value
    ∧ pdg.pi_minus.value = -pdg.pi_plus.value
    ∧ pdg.kaon_minus.value = -pdg.kaon_plus.value
    ∧ pdg.anti_proton.value = -pdg.proton.value
    ∧ pdg.anti_he3.value = -pdg.he3.value
    ∧ pdg.anti_alpha.value = -pdg.alpha.value
    ∧ pdg.anti_deuteron.value = -pdg.deuteron.value
    ∧ pdg.anti_triton.value = -pdg.triton.value
    ∧ (∀ p ∈ pdg.definitions, p.value ≠ 0)
    ∧ pdg.gamma.value = 22
    ∧ (∀ p ∈ pdg.definitions,
        (PDGNumber.mk (-p.value) ∉ pdg.definitions ↔ p = pdg.gamma)) := by
  refine ⟨rfl, rfl, rfl, rfl, rfl, rfl, rfl, rfl, rfl, by decide, rfl, by decide⟩

/-- Witness of C13 at `gamma`: its negation -22 is not a defined code. -/
theorem pdg_antiparticles_negated_witness :
    PDGNumber.mk (-pdg.gamma.value) ∉ pdg.definitions :=
  (pdg_antiparticles_negated.2.2.2.2.2.2.2.2.2.2.2 pdg.gamma (by decide)).mpr rfl

/-! ## Theorems: error kinds named by the macros -/

/-- C14 on the code: in a debug build of host code the tokens that `REQUIRE`,
`CHECK`, `ENSURE` and `CHECK_UNREACHABLE` pass name declared enumerators of
`DebugErrorType` (their expansions are well formed), but the token `assertion`
that `INSIST` passes in device code names none of the four, so that expansion
is ill formed whatever the condition and the debug setting. -/
theorem insist_device_names_undeclared_kind {σ : Type} (debug ndebug : Bool)
    (c : Cond σ) (msg file : String) (line : Nat) (s : σ) :
    DebugErrorType.ofToken "assertion" = none
    ∧ INSIST ⟨debug, true, ndebug⟩ c msg file line s = Outcome.ill_formed
    ∧ DebugErrorType.ofToken "precondition" = some .precondition
    ∧ DebugErrorType.ofToken "internal" = some .internal
    ∧ DebugErrorType.ofToken "postcondition" = some .postcondition
    ∧ DebugErrorType.ofToken "unreachable" = some .unreachable
    ∧ REQUIRE (BuildConfig.debug_host ndebug) c file line s ≠ Outcome.ill_formed
    ∧ CHECK (BuildConfig.debug_host ndebug) c file line s ≠ Outcome.ill_formed
    ∧ ENSURE (BuildConfig.debug_host ndebug) c file line s ≠ Outcome.ill_formed
    ∧ CHECK_UNREACHABLE (BuildConfig.debug_host ndebug) file line s ≠ Outcome.ill_formed := by
  refine ⟨by decide, ?_, by decide, by decide, by decide, by decide, ?_, ?_, ?_, ?_⟩
  · simp [INSIST, DebugErrorType.ofToken]
  · cases hc : (c.eval s).1 <;>
      simp [REQUIRE, BuildConfig.debug_host, CELER_DEBUG_ASSERT_,
        DebugErrorType.ofToken, throw_debug_error, hc]
  · cases hc : (c.eval s).1 <;>
      simp [CHECK, BuildConfig.debug_host, CELER_DEBUG_ASSERT_,
        DebugErrorType.ofToken, throw_debug_error, hc]
  · cases hc : (c.eval s).1 <;>
      simp [ENSURE, BuildConfig.debug_host, CELER_DEBUG_ASSERT_,
        DebugErrorType.ofToken, throw_debug_error, hc]
  · simp [CHECK_UNREACHABLE, BuildConfig.debug_host, CELER_DEBUG_ASSERT_,
      DebugErrorType.ofToken, throw_debug_error, Cond.lit_false]

end celeritas
